import Mathlib

/-!
Verification of the nebari stage-orchestration core against its Python source.

Shallow embedding conventions: pydantic models become structures, Python enum
classes become inductives, functions that may raise become `Except`-valued
functions, Python `None` is `Option.none`, and Python dicts that the code only
ever iterates or tests become association lists. Code of the repository that is
not present under src/ (the deployment driver, `_nebari/version.py`,
`_nebari/utils.py`) is modelled from the specification and marked as such in
the doc comment of each affected definition.
-/

namespace Nebari

/-- Python exceptions raised by the embedded code. -/
inductive PyError
  | valueError (msg : String)
  | assertionError (msg : String)
  | validationError (msg : String)
deriving Repr, DecidableEq

/-- `ProviderEnum` from src/src/nebari/schema.py (lines 87-98): the closed set
of provider tags. `do` and `local` are Lean keywords, embedded as `do_` and
`local_`; member values equal member names in the source. -/
inductive ProviderEnum
  | local_
  | existing
  | do_
  | aws
  | gcp
  | azure
deriving Repr, DecidableEq

/-- The `.value` attribute of each `ProviderEnum` member (schema.py lines 88-94). -/
def ProviderEnum.value : ProviderEnum → String
  | .local_ => "local"
  | .existing => "existing"
  | .do_ => "do"
  | .aws => "aws"
  | .gcp => "gcp"
  | .azure => "azure"

/-- The provider tag as dispatched on by stage code. The stages' if/elif chains
end in a defensive else branch for values outside the closed enum, so the tag is
embedded as the closed enum extended with an out-of-enum case carrying the raw
value the Python f-strings would interpolate. -/
inductive ProviderTag
  | known : ProviderEnum → ProviderTag
  | unknown : String → ProviderTag
deriving Repr, DecidableEq

/-- `LocalProvider` (infrastructure/__init__.py lines 1207-1262); only the
fields read by the embedded stage functions are carried. -/
structure LocalProvider where
  kube_context : Option String := none
deriving Repr, DecidableEq

/-- `ExistingProvider` (infrastructure/__init__.py lines 1264-1320); only the
fields read by the embedded stage functions are carried. -/
structure ExistingProvider where
  kube_context : Option String := none
deriving Repr, DecidableEq

/-- `DigitalOceanProvider` (infrastructure/__init__.py lines 260-352); only the
fields read by the embedded stage functions are carried. -/
structure DigitalOceanProvider where
  region : String := "nyc3"
  kubernetes_version : Option String := none
  tags : List String := []
deriving Repr, DecidableEq

/-- `GoogleCloudPlatformProvider` (infrastructure/__init__.py lines 561-723);
only the fields read by the embedded stage functions are carried. -/
structure GoogleCloudPlatformProvider where
  region : String := "us-central1"
  project : String := ""
  kubernetes_version : String := ""
deriving Repr, DecidableEq

/-- `AzureProvider` (infrastructure/__init__.py lines 766-945); only the fields
read by the embedded stage functions are carried. -/
structure AzureProvider where
  region : String := "Central US"
  kubernetes_version : Option String := none
  storage_account_postfix : String := "aaaaaaaa"
  resource_group_name : Option String := none
  tags : List (String × String) := []
deriving Repr, DecidableEq

/-- `AmazonWebServicesProvider` (infrastructure/__init__.py lines 1021-1205);
only the fields read by the embedded stage functions are carried. -/
structure AmazonWebServicesProvider where
  region : String := "us-west-2"
  kubernetes_version : String := ""
deriving Repr, DecidableEq

/-- Modelled from the spec: `__version__` (src/_nebari/version.py is absent from
src/). The spec fixes only that the configuration's version marker is compared
against the orchestrator's own version; the concrete value is an arbitrary
non-empty version string. -/
def nebariVersion : String := "2024.9.1"

/-- The validated global configuration seen by the stages: the global fields of
`Main` (src/src/nebari/schema.py lines 101-177) merged with the provider
sections of the infrastructure `InputSchema` (infrastructure/__init__.py lines
1478-1803). `namespace` and `local` are Lean keywords, embedded as `namespace_`
and `local_`. Sections that would be `None` in Python are carried with their
defaults; the dispatch code only reads the section matching the active provider. -/
structure NebariConfig where
  project_name : String
  namespace_ : String := "dev"
  provider : ProviderTag := .known .local_
  nebari_version : String := nebariVersion
  prevent_deploy : Bool := false
  local_ : LocalProvider := {}
  existing : ExistingProvider := {}
  google_cloud_platform : GoogleCloudPlatformProvider := {}
  amazon_web_services : AmazonWebServicesProvider := {}
  azure : AzureProvider := {}
  digital_ocean : DigitalOceanProvider := {}
deriving Repr, DecidableEq

/-- Modelled from the spec: constant from src/_nebari/utils.py (absent from
src/); its exact value never affects a claim below. -/
def AZURE_TF_STATE_RESOURCE_GROUP_SUFFIX : String := "-state"

/-- Modelled from the spec: constant from src/_nebari/utils.py (absent from
src/); its exact value never affects a claim below. -/
def AZURE_NODE_RESOURCE_GROUP_SUFFIX : String := "-node-resource-group"

/-- Modelled from the spec: `construct_azure_resource_group_name` lives in
src/_nebari/utils.py, which is absent from src/. No claim below depends on its
output value, only on the control flow around its call sites; modelled as the
base resource-group name with the suffix appended when the base is set, else
a project/namespace derived name. -/
def construct_azure_resource_group_name (project_name namespace_ : String)
    (base_resource_group_name : Option String) (suffix : String) : String :=
  match base_resource_group_name with
  | some base => base ++ suffix
  | none => project_name ++ "-" ++ namespace_ ++ suffix

/-- Modelled from the spec: `escape_string` lives in src/_nebari/utils.py, which
is absent from src/. Only the control flow of `Main.escaped_project_name`
matters to the claims, never this function's output. -/
def escape_string (escape_char : String) (s : String) : String :=
  escape_char ++ s

/-- `Main.escaped_project_name` (src/src/nebari/schema.py lines 193-204). -/
def NebariConfig.escaped_project_name (config : NebariConfig) : String :=
  let pn := config.project_name
  let pn := if config.provider == ProviderTag.known ProviderEnum.azure && pn.contains '-' then
      escape_string "a" pn
    else pn
  if config.provider == ProviderTag.known ProviderEnum.aws && pn.startsWith "aws" then
    "a" ++ pn
  else pn

/-- A stage's registration metadata: `name` and integer `priority` class
attributes declared on each stage class. -/
structure StageDesc where
  name : String
  priority : Nat
deriving Repr, DecidableEq

/-- `BootstrapStage` metadata (bootstrap/__init__.py lines 219-221). -/
def BootstrapStage.desc : StageDesc := { name := "bootstrap", priority := 0 }

/-- `TerraformStateStage` metadata (terraform_state/__init__.py lines 234-236). -/
def TerraformStateStage.desc : StageDesc := { name := "01-terraform-state", priority := 10 }

/-- `KubernetesInfrastructureStage` metadata (infrastructure/__init__.py lines 1880-1881). -/
def KubernetesInfrastructureStage.desc : StageDesc := { name := "02-infrastructure", priority := 20 }

/-- `TerraformStateStage.stage_prefix` (terraform_state/__init__.py lines
249-251): `pathlib.Path("stages") / self.name / self.config.provider.value`,
embedded as "/"-joined path segments. -/
def TerraformStateStage.stage_prefix (p : ProviderEnum) : String :=
  "stages" ++ "/" ++ TerraformStateStage.desc.name ++ "/" ++ p.value

/-- `KubernetesInfrastructureStage.stage_prefix` (infrastructure/__init__.py
lines 1894-1896): same path convention for the 02-infrastructure stage. -/
def KubernetesInfrastructureStage.stage_prefix (p : ProviderEnum) : String :=
  "stages" ++ "/" ++ KubernetesInfrastructureStage.desc.name ++ "/" ++ p.value

/-- The per-provider input-variable records built by
`TerraformStateStage.input_vars` (terraform_state/__init__.py lines 24-71):
`DigitalOceanInputVars`, `GCPInputVars`, `AWSInputVars`, `AzureInputVars`, and
the bare `{}` returned for the local and existing variants. The pydantic field
validators on the Azure record (resource-group name shape, tag validation) are
not modelled: no claim below depends on Azure payload validation. -/
inductive TFStateInputVars
  | doVars (name namespace_ region : String)
  | gcpVars (name namespace_ region : String)
  | awsVars (name namespace_ : String)
  | azureVars (name namespace_ region storage_account_postfix_ state_resource_group_name : String)
      (tags : List (String × String))
  | emptyVars
deriving Repr, DecidableEq

/-- `TerraformStateStage.input_vars` (terraform_state/__init__.py lines
326-364). `.ok (some vars)` models a normal return of a dict, `.ok none` models
a normal return of Python `None`, `.error` models a raised exception. The final
else branch of the source evaluates `ValueError(f"Unknown provider: ...")`
WITHOUT `raise` and then falls off the end of the function, so for a provider
tag outside the enum the Python function returns `None` normally. -/
def TerraformStateStage.input_vars (config : NebariConfig) :
    Except PyError (Option TFStateInputVars) :=
  match config.provider with
  | .known .do_ =>
      .ok (some (.doVars config.project_name config.namespace_ config.digital_ocean.region))
  | .known .gcp =>
      .ok (some (.gcpVars config.project_name config.namespace_
        config.google_cloud_platform.region))
  | .known .aws =>
      .ok (some (.awsVars config.project_name config.namespace_))
  | .known .azure =>
      .ok (some (.azureVars config.project_name config.namespace_ config.azure.region
        config.azure.storage_account_postfix
        (construct_azure_resource_group_name config.project_name config.namespace_
          config.azure.resource_group_name AZURE_TF_STATE_RESOURCE_GROUP_SUFFIX)
        config.azure.tags))
  | .known .local_ | .known .existing => .ok (some .emptyVars)
  | .unknown _ => .ok none

/-- `TerraformStateStage.state_imports` (terraform_state/__init__.py lines
253-306). Every branch of the source returns a list (the final else returns
`[]`). The `os.environ["ARM_SUBSCRIPTION_ID"]` read in the Azure branch is
passed in as `arm_subscription_id` (Python would raise KeyError when it is
unset; no claim depends on that). -/
def TerraformStateStage.state_imports (config : NebariConfig)
    (arm_subscription_id : String) : List (String × String) :=
  match config.provider with
  | .known .do_ =>
      [("module.terraform-state.module.spaces.digitalocean_spaces_bucket.main",
        config.digital_ocean.region ++ "," ++ config.project_name ++ "-" ++
          config.namespace_ ++ "-terraform-state")]
  | .known .gcp =>
      [("module.terraform-state.module.gcs.google_storage_bucket.static-site",
        config.project_name ++ "-" ++ config.namespace_ ++ "-terraform-state")]
  | .known .azure =>
      let resource_name_pre := config.project_name ++ "-" ++ config.namespace_
      let state_resource_group_name := construct_azure_resource_group_name
        config.project_name config.namespace_ config.azure.resource_group_name
        AZURE_TF_STATE_RESOURCE_GROUP_SUFFIX
      let state_resource_name_pre_safe := resource_name_pre.replace "-" ""
      let resource_group_url := "/subscriptions/" ++ arm_subscription_id ++
        "/resourceGroups/" ++ state_resource_group_name
      [("module.terraform-state.azurerm_resource_group.terraform-state-resource-group",
        resource_group_url),
       ("module.terraform-state.azurerm_storage_account.terraform-state-storage-account",
        resource_group_url ++ "/providers/Microsoft.Storage/storageAccounts/" ++
          state_resource_name_pre_safe ++ config.azure.storage_account_postfix),
       ("module.terraform-state.azurerm_storage_container.storage_container",
        "https://" ++ state_resource_name_pre_safe ++ config.azure.storage_account_postfix ++
          ".blob.core.windows.net/" ++ resource_name_pre ++ "-state")]
  | .known .aws =>
      [("module.terraform-state.aws_s3_bucket.terraform-state",
        config.project_name ++ "-" ++ config.namespace_ ++ "-terraform-state"),
       ("module.terraform-state.aws_dynamodb_table.terraform-state-lock",
        config.project_name ++ "-" ++ config.namespace_ ++ "-terraform-state-lock")]
  | .known .local_ | .known .existing | .unknown _ => []

/-- The per-provider input-variable records built by
`KubernetesInfrastructureStage.input_vars` (infrastructure/__init__.py lines
36-141). The cloud constructors carry the computed name/environment fields plus
the provider section whose fields the source projects one-to-one into the
record; node-group reshaping does not affect any claim below. The source's
`ExistingInputVars` requires a non-None `kube_context`; that nested validation
is not modelled (no claim depends on it). -/
inductive KubeInputVars
  | localVars (kube_context : Option String)
  | existingVars (kube_context : Option String)
  | doVars (name environment : String) (digital_ocean : DigitalOceanProvider)
  | gcpVars (name environment : String) (google_cloud_platform : GoogleCloudPlatformProvider)
  | azureVars (name environment resource_group_name node_resource_group_name : String)
      (azure : AzureProvider)
  | awsVars (name environment : String) (amazon_web_services : AmazonWebServicesProvider)
deriving Repr, DecidableEq

/-- `KubernetesInfrastructureStage.input_vars` (infrastructure/__init__.py lines
1947-2052). Unlike the terraform-state stage, the final else branch DOES
`raise ValueError(f"Unknown provider: ...")`. -/
def KubernetesInfrastructureStage.input_vars (config : NebariConfig) :
    Except PyError (Option KubeInputVars) :=
  match config.provider with
  | .known .local_ =>
      .ok (some (.localVars config.local_.kube_context))
  | .known .existing =>
      .ok (some (.existingVars config.existing.kube_context))
  | .known .do_ =>
      .ok (some (.doVars config.escaped_project_name config.namespace_ config.digital_ocean))
  | .known .gcp =>
      .ok (some (.gcpVars config.escaped_project_name config.namespace_
        config.google_cloud_platform))
  | .known .azure =>
      .ok (some (.azureVars config.escaped_project_name config.namespace_
        (construct_azure_resource_group_name config.project_name config.namespace_
          config.azure.resource_group_name "")
        (construct_azure_resource_group_name config.project_name config.namespace_
          config.azure.resource_group_name AZURE_NODE_RESOURCE_GROUP_SUFFIX)
        config.azure))
  | .known .aws =>
      .ok (some (.awsVars config.escaped_project_name config.namespace_
        config.amazon_web_services))
  | .unknown p => .error (.valueError ("Unknown provider: " ++ p))

/-- `KubernetesInfrastructureStage.state_imports` (infrastructure/__init__.py
lines 1898-1917). Only the Azure branch returns a value; for every other
provider the source falls off the end of the function, so Python returns `None`
— hence the `Option` result, despite the source's `-> List[Tuple[str, str]]`
annotation. -/
def KubernetesInfrastructureStage.state_imports (config : NebariConfig)
    (arm_subscription_id : String) : Option (List (String × String)) :=
  match config.provider with
  | .known .azure =>
      match config.azure.resource_group_name with
      | none => some []
      | some _ =>
          let resource_group_name := construct_azure_resource_group_name
            config.project_name config.namespace_ config.azure.resource_group_name ""
          some [("azurerm_resource_group.resource_group",
            "/subscriptions/" ++ arm_subscription_id ++ "/resourceGroups/" ++
              resource_group_name)]
  | _ => none

/-- Outcome of probing the cluster named by the recorded kubeconfig in
`KubernetesInfrastructureStage.check` (infrastructure/__init__.py lines
2054-2081): `client.CoreV1Api().list_namespace()` either raises `ApiException`
(cluster unreachable through the kubeconfig) or returns a listing with
`items` entries. -/
inductive ClusterProbe
  | unreachable
  | reachable (items : Nat)
deriving Repr, DecidableEq

/-- How the embedded `check` ends: `sys.exit(code)` or a normal return. -/
inductive CheckResult
  | exited (code : Nat)
  | returned
deriving Repr, DecidableEq

/-- `KubernetesInfrastructureStage.check` (infrastructure/__init__.py lines
2054-2081): an `ApiException` is caught and turned into `sys.exit(1)`; a
listing with fewer than one item is also `sys.exit(1)`; otherwise the function
prints a success line and returns. -/
def KubernetesInfrastructureStage.check (probe : ClusterProbe) : CheckResult :=
  match probe with
  | .unreachable => .exited 1
  | .reachable items => if items < 1 then .exited 1 else .returned

/-- Priority order on stage descriptors: lower `priority` runs first. -/
def stageLE (a b : StageDesc) : Prop := a.priority ≤ b.priority

instance : DecidableRel stageLE := fun a b => Nat.decLe a.priority b.priority

instance : IsTotal StageDesc stageLE := ⟨fun a b => Nat.le_total a.priority b.priority⟩

instance : IsTrans StageDesc stageLE := ⟨fun _ _ _ h h' => Nat.le_trans h h'⟩

/-- Modelled from the spec: the deployment driver (src/_nebari/deploy.py, absent
from src/) "visits stages in strictly non-decreasing priority order", with
"ties broken by registration order — must be deterministic", i.e. a stable sort
of the registered stages by ascending priority. -/
def deployOrder (stages : List StageDesc) : List StageDesc :=
  List.insertionSort stageLE stages

/-- Modelled from the spec: the teardown driver (src/_nebari/destroy.py, absent
from src/) "visits the exact reverse sequence" of the deploy pass. -/
def destroyOrder (stages : List StageDesc) : List StageDesc :=
  (deployOrder stages).reverse

/-- The stage set registered by the three `nebari_stage` hook implementations in
src/ (bootstrap, terraform_state, infrastructure), in registration order. -/
def registered_stages : List StageDesc :=
  [BootstrapStage.desc, TerraformStateStage.desc, KubernetesInfrastructureStage.desc]

/-- Modelled from the spec: `rounded_ver_parse` (src/_nebari/version.py, absent
from src/). The spec's version-marker contract is that the configuration's
marker "must match the orchestrator's own version exactly", so the parse is
modelled as the identity on version strings. -/
def rounded_ver_parse (v : String) : String := v

/-- `Main.is_version_accepted` (src/src/nebari/schema.py lines 189-191). -/
def Main.is_version_accepted (v : String) : Bool :=
  v != "" && (rounded_ver_parse v == rounded_ver_parse nebariVersion)

/-- `Main.check_default` (src/src/nebari/schema.py lines 181-187): the
`nebari_version` field validator; its failing `assert` raises AssertionError and
so fails validation of the configuration. -/
def Main.check_default (v : String) : Except PyError String :=
  if Main.is_version_accepted v then .ok v
  else
    .error (.assertionError ("nebari_version=" ++ v ++
      " is not an accepted version, it must be equivalent to " ++ nebariVersion))

/-- The declared top-level fields of `Main` (src/src/nebari/schema.py lines
101-177). -/
def Main.fieldNames : List String :=
  ["project_name", "namespace", "provider", "nebari_version", "prevent_deploy"]

/-- Pydantic `extra="forbid"` behaviour set by `Base.model_config`
(src/src/nebari/schema.py lines 35-38), which every schema record inherits: a
document carrying a key outside the declared field set fails validation. -/
def forbidExtraKeys (declared : List String) (doc : List (String × String)) :
    Except PyError Unit :=
  match doc.find? (fun kv => !(declared.contains kv.1)) with
  | some kv => .error (.validationError ("Extra inputs are not permitted: " ++ kv.1))
  | none => .ok ()

/-- The unknown-top-level-key phase of validating a document against `Main`. -/
def Main.validate_extra_keys (doc : List (String × String)) : Except PyError Unit :=
  forbidExtraKeys Main.fieldNames doc

/-- A raw configuration document as seen by the mode="before" validator
`InputSchema.check_provider` (infrastructure/__init__.py lines 1806-1837): the
value under the "provider" key when present, plus the list of the document's
other top-level keys. -/
structure RawConfig where
  provider : Option String
  keys : List String
deriving Repr, DecidableEq

/-- `provider_enum_name_map` (infrastructure/__init__.py lines 1456-1463), in
source insertion order. -/
def provider_enum_name_map : List (ProviderEnum × String) :=
  [(.local_, "local"), (.existing, "existing"), (.gcp, "google_cloud_platform"),
   (.aws, "amazon_web_services"), (.azure, "azure"), (.do_, "digital_ocean")]

/-- `provider_name_abbreviation_map` (infrastructure/__init__.py lines
1465-1467): section name to enum value, inverting `provider_enum_name_map`. -/
def provider_name_abbreviation_map : List (String × String) :=
  provider_enum_name_map.map (fun kv => (kv.2, kv.1.value))

/-- `hasattr(schema.ProviderEnum, provider)` (infrastructure/__init__.py line
1811): true for the six member names and for the `to_yaml` classmethod defined
in the enum class body (schema.py lines 96-98). Attributes inherited from
`object`/`type` behave the same as `to_yaml` for every claim below: the
validator passes the value through and the subsequent enum coercion rejects it. -/
def providerEnumHasAttr (s : String) : Bool :=
  ["local", "existing", "do", "aws", "gcp", "azure", "to_yaml"].contains s

/-- Pydantic coercion of a provider value to `ProviderEnum` by member value
(schema.py lines 87-94). -/
def parseProviderEnum (s : String) : Option ProviderEnum :=
  if s == "local" then some .local_
  else if s == "existing" then some .existing
  else if s == "do" then some .do_
  else if s == "aws" then some .aws
  else if s == "gcp" then some .gcp
  else if s == "azure" then some .azure
  else none

/-- `setted_providers` (infrastructure/__init__.py lines 1825-1829): the
provider section names present in the document, in map order. -/
def settedProviders (data : RawConfig) : List String :=
  (provider_name_abbreviation_map.map Prod.fst).filter (fun n => data.keys.contains n)

/-- `InputSchema.check_provider` (infrastructure/__init__.py lines 1806-1837).
In the explicit-provider branch, `data[provider] = provider_enum_model_map[...]()`
for a missing local/existing section is modelled by appending that key. In the
inference branch the abbreviation lookup cannot miss because the looked-up name
comes from the map's own key list. -/
def check_provider (data : RawConfig) : Except PyError RawConfig :=
  match data.provider with
  | some p =>
      if providerEnumHasAttr p then
        if (p == "local" || p == "existing") && !(data.keys.contains p) then
          .ok { provider := some p, keys := data.keys ++ [p] }
        else .ok data
      else
        .error (.valueError ("'" ++ p ++
          "' is not a valid enumeration member; permitted: local, existing, do, aws, gcp, azure"))
  | none =>
      let setted := settedProviders data
      if setted.length > 1 then
        .error (.valueError ("Multiple providers set: " ++ String.intercalate ", " setted))
      else
        match setted with
        | [n] => .ok { provider := provider_name_abbreviation_map.lookup n, keys := data.keys }
        | _ => .ok { provider := some "local", keys := data.keys }

/-- Provider-tag validation end to end: the mode="before" `check_provider`
validator followed by pydantic's coercion of the resulting provider value to
`ProviderEnum` (the `provider: ProviderEnum` field of `Main`). -/
def validateProviderTag (data : RawConfig) : Except PyError ProviderEnum :=
  match check_provider data with
  | .error e => .error e
  | .ok d =>
      match d.provider with
      | none => .error (.validationError "Field required: provider")
      | some s =>
          match parseProviderEnum s with
          | some p => .ok p
          | none => .error (.validationError ("Input should be a valid ProviderEnum value: " ++ s))

/-- The collaborator calls `handle_deploy` can make, in order. -/
inductive DeployEvent
  | verifyCalled
  | renderCalled
  | deployConfigurationCalled
deriving Repr, DecidableEq

/-- The CLI arguments `handle_deploy` dispatches on. -/
structure DeployArgs where
  config_is_file : Bool
  disable_render : Bool
  has_input : Bool
deriving Repr, DecidableEq

/-- `handle_deploy` (src/qhub/cli/deploy.py lines 40-60), embedded as the
ordered trace of collaborator calls it makes paired with the exception it
propagates (if any): a missing configuration file raises before anything runs;
a raising `verify` aborts before render and before `deploy_configuration`; the
choice between the two render collaborators does not change the trace shape
recorded here. -/
def handle_deploy (args : DeployArgs) (verifyResult : Except PyError Unit) :
    List DeployEvent × Option PyError :=
  if !args.config_is_file then
    ([], some (.valueError "passed in configuration filename must exist"))
  else
    match verifyResult with
    | .error e => ([.verifyCalled], some e)
    | .ok _ =>
        let renderEvents := if !args.disable_render then [DeployEvent.renderCalled] else []
        ([DeployEvent.verifyCalled] ++ renderEvents ++ [DeployEvent.deployConfigurationCalled],
         none)

/-- `TerraformStateEnum` (terraform_state/__init__.py lines 75-82); `local` is a
Lean keyword, embedded as `local_`. -/
inductive TerraformStateEnum
  | remote
  | local_
  | existing
deriving Repr, DecidableEq

/-- The `.name` attribute of each `TerraformStateEnum` member, as interpolated
into the validator's error messages. -/
def TerraformStateEnum.pyName : TerraformStateEnum → String
  | .remote => "remote"
  | .local_ => "local"
  | .existing => "existing"

/-- `TerraformState` (terraform_state/__init__.py lines 85-173): `type` defaults
to remote, `backend` to None, `config` to an empty dict. -/
structure TerraformState where
  type : TerraformStateEnum := .remote
  backend : Option String := none
  config : List (String × String) := []
deriving Repr, DecidableEq

/-- `TerraformState.validate_fields` (terraform_state/__init__.py lines
175-192): the mode="after" model validator; `any([backend is not None, config])`
is truthiness of the option and of the dict. -/
def TerraformState.validate_fields (self : TerraformState) : Except PyError TerraformState :=
  match self.type with
  | .remote | .local_ =>
      if self.backend.isSome || !self.config.isEmpty then
        let offending := if self.backend.isSome then "backend" else "config"
        .error (.valueError ("The `" ++ offending ++ "` field is not supported for the `" ++
          self.type.pyName ++ "` state type."))
      else .ok self
  | .existing =>
      if self.backend.isNone || self.config.isEmpty then
        let offending := if self.backend.isNone then "backend" else "config"
        .error (.valueError ("The `" ++ offending ++
          "` field is required for the `existing` state type."))
      else .ok self

/-- `Base.check_dependencies` (src/src/nebari/schema.py lines 40-84) as it acts
on a `TerraformState` value. The inherited validator walks the record's fields
in declaration order and, for each field whose `json_schema_extra` carries a
`depends_on` dict, raises unless every named dependency field currently holds
the required value — without checking whether the depending field itself was
set. For `TerraformState`: `type` carries no `depends_on`; `backend`'s kwarg is
misspelled `depends_ond` (terraform_state/__init__.py line 137), so its extras
have no "depends_on" key and it is skipped; `config` declares
`depends_on={"type": TerraformStateEnum.existing}` (line 172). The validator
therefore raises exactly when `type != existing`. How Python interpolates the
enum member into the message is version dependent; no claim depends on the
message text. -/
def TerraformState.check_dependencies (self : TerraformState) : Except PyError TerraformState :=
  if self.type ≠ TerraformStateEnum.existing then
    .error (.valueError
      "The field 'config' depends on the field 'type' having the value 'TerraformStateEnum.existing'.")
  else .ok self

/-- Full mode="after" validation of a `TerraformState` value: pydantic runs the
model validators inherited from `Base` together with the record's own, so a
value is accepted exactly when both `check_dependencies` (schema.py lines
40-84) and `validate_fields` (terraform_state/__init__.py lines 175-192) pass.
Base-class validators are collected first; acceptance is order-independent. -/
def TerraformState.validate (self : TerraformState) : Except PyError TerraformState :=
  match self.check_dependencies with
  | .error e => .error e
  | .ok s => s.validate_fields

/-- The default `TerraformState()` value — type remote, no backend, empty
config — as produced by the `default_factory` of the stage's InputSchema
(terraform_state/__init__.py lines 196-197). -/
def defaultTerraformState : TerraformState := {}

/-- Example configuration with a provider tag outside the closed enum. -/
def cfgUnknownProvider : NebariConfig :=
  { project_name := "demo", provider := .unknown "oracle" }

/-- Example configuration for the local provider variant. -/
def cfgLocalProvider : NebariConfig :=
  { project_name := "demo", provider := .known .local_ }

/-- Example configuration for the existing-cluster provider variant. -/
def cfgExistingProvider : NebariConfig :=
  { project_name := "demo", provider := .known .existing }

/-- Example Azure configuration with no resource_group_name configured. -/
def cfgAzureNoRG : NebariConfig :=
  { project_name := "demo", provider := .known .azure }

/-- Example document carrying a top-level key outside `Main`'s declared fields. -/
def docWithUnknownKey : List (String × String) :=
  [("project_name", "demo"), ("unknown_key", "x")]

/-- Example raw document: exactly one provider section, no explicit provider. -/
def rawGcpOnly : RawConfig := { provider := none, keys := ["google_cloud_platform"] }

/-- Example raw document: two provider sections, no explicit provider. -/
def rawTwoProviders : RawConfig := { provider := none, keys := ["azure", "digital_ocean"] }

/-- Example raw document: no provider section and no explicit provider. -/
def rawNoProviders : RawConfig := { provider := none, keys := [] }

/-- Example raw document: an explicit provider value outside the closed enum. -/
def rawBadProvider : RawConfig := { provider := some "oracle", keys := [] }

/-- Helper: when the document has an explicit provider value for which
`hasattr(ProviderEnum, ...)` holds, `check_provider` returns a document whose
provider value is unchanged (both sub-branches preserve it). -/
theorem check_provider_keeps_attr_value (data : RawConfig) (s : String)
    (hp : data.provider = some s) (hattr : providerEnumHasAttr s = true) :
    ∃ d, check_provider data = Except.ok d ∧ d.provider = some s := by
  unfold check_provider
  rw [hp]
  simp only [hattr, if_true]
  split
  · exact ⟨_, rfl, rfl⟩
  · exact ⟨data, rfl, hp⟩

/-- C1: the claim states that for a provider tag outside the implemented
variants, BOTH `TerraformStateStage.input_vars` and
`KubernetesInfrastructureStage.input_vars` raise an explicit unknown-provider
error and never return normally. The infrastructure stage does raise, but
`TerraformStateStage.input_vars` evaluates `ValueError(f"Unknown provider: ...")`
WITHOUT `raise` (terraform_state/__init__.py line 364) and returns Python `None`
normally — the code contradicts the spec's fail-fast invariant at this input. -/
theorem C1_unknown_provider_not_raised :
    TerraformStateStage.input_vars cfgUnknownProvider = Except.ok none
    ∧ KubernetesInfrastructureStage.input_vars cfgUnknownProvider
        = Except.error (PyError.valueError "Unknown provider: oracle") :=
  ⟨rfl, rfl⟩

/-- C2 counterexample: the claim states
`KubernetesInfrastructureStage.state_imports` returns an empty sequence for
every non-Azure provider; at the local provider it returns Python `None` (no
sequence at all), which is not the empty sequence. -/
theorem C2_counterexample :
    KubernetesInfrastructureStage.state_imports cfgLocalProvider "subscription-id" = none
    ∧ KubernetesInfrastructureStage.state_imports cfgLocalProvider "subscription-id"
        ≠ some ([] : List (String × String)) :=
  ⟨rfl, by decide⟩

/-- C2 (amended): for every non-Azure provider
`KubernetesInfrastructureStage.state_imports` returns `None` (absent, not the
empty sequence); for Azure with no resource_group_name configured it returns an
empty sequence; and `TerraformStateStage.state_imports` returns an empty
sequence for the local and existing variants. -/
theorem C2_state_imports_amended :
    (∀ (config : NebariConfig) (arm : String),
        config.provider ≠ ProviderTag.known ProviderEnum.azure →
        KubernetesInfrastructureStage.state_imports config arm = none)
    ∧ (∀ (config : NebariConfig) (arm : String),
        config.provider = ProviderTag.known ProviderEnum.azure →
        config.azure.resource_group_name = none →
        KubernetesInfrastructureStage.state_imports config arm = some [])
    ∧ (∀ (config : NebariConfig) (arm : String),
        config.provider = ProviderTag.known ProviderEnum.local_ ∨
          config.provider = ProviderTag.known ProviderEnum.existing →
        TerraformStateStage.state_imports config arm = []) := by
  refine ⟨?_, ?_, ?_⟩
  · intro config arm h
    rcases hc : config.provider with p | s
    · cases p
      case azure => exact absurd hc h
      all_goals simp [KubernetesInfrastructureStage.state_imports, hc]
    · simp [KubernetesInfrastructureStage.state_imports, hc]
  · intro config arm h hrg
    simp [KubernetesInfrastructureStage.state_imports, h, hrg]
  · intro config arm h
    rcases h with h | h <;> simp [TerraformStateStage.state_imports, h]

/-- C2 witness: the amended statement evaluated at concrete configurations for
the local, Azure-without-resource-group and existing variants. -/
theorem C2_witness :
    cfgLocalProvider.provider ≠ ProviderTag.known ProviderEnum.azure
    ∧ KubernetesInfrastructureStage.state_imports cfgLocalProvider "sub" = none
    ∧ cfgAzureNoRG.provider = ProviderTag.known ProviderEnum.azure
    ∧ cfgAzureNoRG.azure.resource_group_name = none
    ∧ KubernetesInfrastructureStage.state_imports cfgAzureNoRG "sub" = some []
    ∧ TerraformStateStage.state_imports cfgExistingProvider "sub" = [] :=
  ⟨by decide, C2_state_imports_amended.1 cfgLocalProvider "sub" (by decide),
   rfl, rfl,
   C2_state_imports_amended.2.1 cfgAzureNoRG "sub" rfl rfl,
   C2_state_imports_amended.2.2 cfgExistingProvider "sub" (Or.inr rfl)⟩

/-- C3: the deploy pass visits registered stages in non-decreasing priority
order (stable in registration order), the destroy pass is the exact reverse,
and for the registered stage set {bootstrap 0, 01-terraform-state 10,
02-infrastructure 20} the deploy sequence is bootstrap, terraform-state,
infrastructure and the destroy sequence its reverse. -/
theorem C3_stage_ordering :
    (∀ stages : List StageDesc, List.Sorted stageLE (deployOrder stages))
    ∧ (∀ stages : List StageDesc, destroyOrder stages = (deployOrder stages).reverse)
    ∧ deployOrder registered_stages =
        [BootstrapStage.desc, TerraformStateStage.desc, KubernetesInfrastructureStage.desc]
    ∧ destroyOrder registered_stages =
        [KubernetesInfrastructureStage.desc, TerraformStateStage.desc, BootstrapStage.desc]
    ∧ BootstrapStage.desc.priority = 0
    ∧ TerraformStateStage.desc.priority = 10
    ∧ KubernetesInfrastructureStage.desc.priority = 20 :=
  ⟨fun stages => List.sorted_insertionSort stageLE stages,
   fun _ => rfl, rfl, rfl, rfl, rfl, rfl⟩

/-- C4: a nebari_version value is accepted exactly when it equals the
orchestrator's own version, and the `nebari_version` field validator accepts
(returns the value) exactly in the same case, so a differing version marker
fails validation. -/
theorem C4_version_marker_exact :
    ∀ v : String,
      (Main.is_version_accepted v = true ↔ v = nebariVersion)
      ∧ (Main.check_default v = Except.ok v ↔ v = nebariVersion) := by
  intro v
  have hacc : Main.is_version_accepted v = true ↔ v = nebariVersion := by
    unfold Main.is_version_accepted rounded_ver_parse
    rw [Bool.and_eq_true, bne_iff_ne, beq_iff_eq]
    constructor
    · rintro ⟨_, h⟩; exact h
    · rintro rfl; exact ⟨by decide, rfl⟩
  refine ⟨hacc, ?_⟩
  by_cases hv : Main.is_version_accepted v = true
  · have hveq := hacc.mp hv
    subst hveq
    simp [Main.check_default, hv]
  · have hne : ¬v = nebariVersion := fun h => hv (hacc.mpr h)
    simp [Main.check_default, hv, hne]

/-- C5: a document containing a top-level key outside `Main`'s declared field
set is rejected by the extra="forbid" phase with a validation error naming an
undeclared key; no such document is accepted. -/
theorem C5_unknown_top_level_key_rejected :
    ∀ (doc : List (String × String)) (k v : String),
      (k, v) ∈ doc → Main.fieldNames.contains k = false →
      ∃ bad, Main.fieldNames.contains bad = false ∧
        Main.validate_extra_keys doc =
          Except.error (PyError.validationError ("Extra inputs are not permitted: " ++ bad)) := by
  intro doc k v hmem hk
  rcases hfind : doc.find? (fun kv => !(Main.fieldNames.contains kv.1)) with _ | kv
  · exfalso
    have hmemf := List.find?_eq_none.mp hfind (k, v) hmem
    simp at hmemf hk
    exact hk hmemf
  · have hp := List.find?_some hfind
    refine ⟨kv.1, ?_, ?_⟩
    · simpa using hp
    · unfold Main.validate_extra_keys forbidExtraKeys
      rw [hfind]

/-- C5 witness: the rejection evaluated at a concrete document carrying the
undeclared key "unknown_key". -/
theorem C5_witness :
    ("unknown_key", "x") ∈ docWithUnknownKey
    ∧ Main.fieldNames.contains "unknown_key" = false
    ∧ ∃ bad, Main.fieldNames.contains bad = false ∧
        Main.validate_extra_keys docWithUnknownKey =
          Except.error (PyError.validationError ("Extra inputs are not permitted: " ++ bad)) :=
  ⟨by decide, by decide,
   C5_unknown_top_level_key_rejected docWithUnknownKey "unknown_key" "x" (by decide) (by decide)⟩

/-- C6: for every provider value, the per-stage working-directory paths are
exactly stages/01-terraform-state/<provider value> and
stages/02-infrastructure/<provider value>. -/
theorem C6_stage_prefix_convention :
    ∀ p : ProviderEnum,
      TerraformStateStage.stage_prefix p = "stages/01-terraform-state/" ++ p.value
      ∧ KubernetesInfrastructureStage.stage_prefix p = "stages/02-infrastructure/" ++ p.value := by
  intro p
  cases p <;> exact ⟨rfl, rfl⟩

/-- C7: in `handle_deploy`, when schema verification of the loaded configuration
raises, `deploy_configuration` is never invoked and the exception propagates, so
a validation failure aborts the run before any stage operation. -/
theorem C7_verify_failure_blocks_deploy :
    ∀ (args : DeployArgs) (e : PyError),
      ((handle_deploy args (Except.error e)).1.contains
          DeployEvent.deployConfigurationCalled) = false
      ∧ ((handle_deploy args (Except.error e)).2).isSome = true := by
  intro args e
  rcases args with ⟨cif, dr, hi⟩
  cases cif <;> simp [handle_deploy]

/-- C8: `KubernetesInfrastructureStage.check` returns normally exactly when the
cluster is reachable through the recorded kubeconfig and the listing has at
least one item; in every other case it terminates the process with exit code 1. -/
theorem C8_check_process_halting :
    ∀ probe : ClusterProbe,
      (KubernetesInfrastructureStage.check probe = CheckResult.returned
        ↔ ∃ n, probe = ClusterProbe.reachable n ∧ 1 ≤ n)
      ∧ (KubernetesInfrastructureStage.check probe = CheckResult.returned
        ∨ KubernetesInfrastructureStage.check probe = CheckResult.exited 1) := by
  intro probe
  cases probe with
  | unreachable =>
      refine ⟨?_, Or.inr rfl⟩
      simp [KubernetesInfrastructureStage.check]
  | reachable n =>
      by_cases h : n < 1
      · refine ⟨?_, Or.inr (by simp [KubernetesInfrastructureStage.check, h])⟩
        simp [KubernetesInfrastructureStage.check, h]
      · refine ⟨?_, Or.inl (by simp [KubernetesInfrastructureStage.check, h])⟩
        simp [KubernetesInfrastructureStage.check, h]
        omega

/-- C9: provider-tag inference at the configuration interface: with no explicit
provider key, exactly one provider section sets the provider to that section's
abbreviation, more than one fails with a "Multiple providers set" error, none
defaults the provider to local; and an explicit provider value outside the
closed enum fails validation. -/
theorem C9_provider_inference :
    (∀ (data : RawConfig) (n ab : String),
        data.provider = none → settedProviders data = [n] →
        provider_name_abbreviation_map.lookup n = some ab →
        check_provider data = Except.ok { provider := some ab, keys := data.keys })
    ∧ (∀ data : RawConfig, data.provider = none → 1 < (settedProviders data).length →
        check_provider data = Except.error (PyError.valueError
          ("Multiple providers set: " ++ String.intercalate ", " (settedProviders data))))
    ∧ (∀ data : RawConfig, data.provider = none → settedProviders data = [] →
        check_provider data = Except.ok { provider := some "local", keys := data.keys })
    ∧ (∀ (data : RawConfig) (s : String), data.provider = some s →
        parseProviderEnum s = none →
        ∃ e, validateProviderTag data = Except.error e) := by
  refine ⟨?_, ?_, ?_, ?_⟩
  · intro data n ab hp hs hl
    unfold check_provider
    rw [hp]
    simp [hs, hl]
  · intro data hp hlen
    unfold check_provider
    rw [hp]
    simp [hlen]
  · intro data hp hs
    unfold check_provider
    rw [hp]
    simp [hs]
  · intro data s hp hparse
    by_cases hattr : providerEnumHasAttr s = true
    · obtain ⟨d, hd, hds⟩ := check_provider_keeps_attr_value data s hp hattr
      refine ⟨PyError.validationError ("Input should be a valid ProviderEnum value: " ++ s), ?_⟩
      unfold validateProviderTag
      rw [hd]
      simp [hds, hparse]
    · refine ⟨PyError.valueError ("'" ++ s ++
        "' is not a valid enumeration member; permitted: local, existing, do, aws, gcp, azure"), ?_⟩
      unfold validateProviderTag check_provider
      rw [hp]
      simp [hattr]

/-- C9 witness: the inference rules evaluated at concrete documents (one gcp
section; azure plus digital_ocean sections; no section; explicit "oracle"). -/
theorem C9_witness :
    settedProviders rawGcpOnly = ["google_cloud_platform"]
    ∧ check_provider rawGcpOnly =
        Except.ok { provider := some "gcp", keys := ["google_cloud_platform"] }
    ∧ 1 < (settedProviders rawTwoProviders).length
    ∧ check_provider rawTwoProviders = Except.error (PyError.valueError
        ("Multiple providers set: " ++ String.intercalate ", " (settedProviders rawTwoProviders)))
    ∧ check_provider rawNoProviders = Except.ok { provider := some "local", keys := [] }
    ∧ parseProviderEnum "oracle" = none
    ∧ ∃ e, validateProviderTag rawBadProvider = Except.error e :=
  ⟨rfl,
   C9_provider_inference.1 rawGcpOnly "google_cloud_platform" "gcp" rfl (by decide) rfl,
   by decide,
   C9_provider_inference.2.1 rawTwoProviders rfl (by decide),
   C9_provider_inference.2.2.1 rawNoProviders rfl (by decide),
   rfl,
   C9_provider_inference.2.2.2 rawBadProvider "oracle" rfl rfl⟩

/-- C10 counterexample: the claim says a TerraformState with the remote type,
no backend and an empty config is accepted; the inherited
`Base.check_dependencies` validator rejects it — as it rejects every value
whose type is not existing — because the `config` field's
`depends_on={"type": existing}` extra is enforced unconditionally, even though
the record's own `validate_fields` validator alone would accept the value. The
default `TerraformState()` is such a value. -/
theorem C10_counterexample :
    ((defaultTerraformState.type = TerraformStateEnum.remote ∨
        defaultTerraformState.type = TerraformStateEnum.local_)
      ∧ defaultTerraformState.backend = none ∧ defaultTerraformState.config = [])
    ∧ TerraformState.validate defaultTerraformState = Except.error (PyError.valueError
        "The field 'config' depends on the field 'type' having the value 'TerraformStateEnum.existing'.")
    ∧ defaultTerraformState.validate_fields = Except.ok defaultTerraformState :=
  ⟨⟨Or.inl rfl, rfl, rfl⟩, rfl, rfl⟩

/-- C10 (amended): validation of a TerraformState value — the inherited
`Base.check_dependencies` dependency validator together with the record's own
`validate_fields` validator — succeeds if and only if the type is existing, the
backend is set and the config is non-empty: the dependency validator rejects
every remote/local-type value outright, so no remote/local value is accepted;
`validate_fields` taken alone accepts exactly the combinations the original
claim described. -/
theorem C10_terraform_state_validation :
    ∀ ts : TerraformState,
      (TerraformState.validate ts = Except.ok ts
        ↔ ts.type = TerraformStateEnum.existing ∧ ts.backend ≠ none ∧ ts.config ≠ [])
      ∧ (ts.validate_fields = Except.ok ts
        ↔ (((ts.type = TerraformStateEnum.remote ∨ ts.type = TerraformStateEnum.local_)
              ∧ ts.backend = none ∧ ts.config = [])
           ∨ (ts.type = TerraformStateEnum.existing ∧ ts.backend ≠ none ∧ ts.config ≠ []))) := by
  intro ts
  rcases ts with ⟨t, b, c⟩
  cases t <;> cases b <;> cases c <;>
    simp [TerraformState.validate, TerraformState.check_dependencies,
      TerraformState.validate_fields]

end Nebari
